import Mathlib

/-!
Shallow embedding of `samples/opensource/sampleMobileNetINT8API/opt_mobilenet_onnx.py`.

The script loads an ONNX model, runs the onnx optimizer pass `eliminate_nop_pad`,
removes the trailing Constant / Reshape / Gemm nodes (with assertion guards),
extends the dims of the second-to-last initializer by two trailing ones, and
appends a 1x1 Conv node named `last_conv_fc` before saving the model.

The embedding models the ONNX protobuf objects by the fields the script reads
and writes.  File I/O is modelled functionally: `optimize_quantized_mobilenet`
maps the loaded model to `Except Err Model`, where `.ok` is the model passed to
`onnx.save` and `.error` is the Python exception (AssertionError / KeyError /
ValueError / IndexError) that aborts the run before anything is saved.
-/

/-- An ONNX node attribute, by the fields the script uses (`kernel_shape`,
`strides`, `pads` are lists of ints). -/
structure Attr where
  name : String
  ints : List Int
deriving DecidableEq, Repr

/-- An ONNX `NodeProto`, by the fields the script reads: `op_type`, `name`,
`input`, `output` and the attributes.  Protobuf message equality (used by
`model.graph.node.remove`) is field-wise equality, matched here by the derived
`DecidableEq`. -/
structure Node where
  opType : String
  name : String
  input : List String
  output : List String
  attr : List Attr
deriving DecidableEq, Repr

/-- An ONNX `TensorProto` initializer, by the fields the script touches:
`name`, `dims`, and the (otherwise untouched) payload bytes. -/
structure Initializer where
  name : String
  dims : List Int
  rawData : List Nat
deriving DecidableEq, Repr

/-- A graph input/output `ValueInfoProto`; the script only reads `.name`. -/
structure ValueInfo where
  name : String
deriving DecidableEq, Repr

/-- An ONNX `GraphProto`, by the fields the script reads and writes. -/
structure Graph where
  node : List Node
  initializer : List Initializer
  input : List ValueInfo
  output : List ValueInfo
deriving DecidableEq, Repr

/-- An ONNX `ModelProto`; the script only works through `.graph`. -/
structure Model where
  graph : Graph
deriving DecidableEq, Repr

/-- The Python exceptions that can abort `optimize_quantized_mobilenet`:
`assert` failures (with the formatted message), a missing key in
`expected_inputs_dict`, the `ValueError` of a failed tuple unpacking, and the
`IndexError` of an out-of-range subscript. -/
inductive Err where
  | assertionError (msg : String)
  | keyError (key : String)
  | valueError
  | indexError
deriving DecidableEq, Repr

instance {ε α : Type} [DecidableEq ε] [DecidableEq α] : DecidableEq (Except ε α) :=
  fun x y =>
    match x, y with
    | .ok a, .ok b =>
        if h : a = b then .isTrue (congrArg Except.ok h)
        else .isFalse fun hh => h (Except.ok.inj hh)
    | .error a, .error b =>
        if h : a = b then .isTrue (congrArg Except.error h)
        else .isFalse fun hh => h (Except.error.inj hh)
    | .ok _, .error _ => .isFalse fun hh => Except.noConfusion hh
    | .error _, .ok _ => .isFalse fun hh => Except.noConfusion hh

/-- Python `lst[-2]`: the second-to-last element when the list has at least two
elements, otherwise an `IndexError` (modelled as `none`). -/
def pyIdxNeg2 {α : Type} (l : List α) : Option α :=
  if 2 ≤ l.length then l.get? (l.length - 2) else none

/-- Writing through Python `lst[-2]` (here: `initializer[-2].dims.extend`):
replace the second-to-last element. -/
def setPyIdxNeg2 {α : Type} (l : List α) (a : α) : List α :=
  l.set (l.length - 2) a

/-- Python `nodes[-3:]`: the last three elements, or the whole list when it is
shorter than three. -/
def sliceLast3 (l : List Node) : List Node :=
  l.drop (l.length - 3)

/-- Python `model.graph.node.remove(n)`: protobuf repeated-field `remove`
behaves like `list.remove`, deleting the first element that compares equal to
`n`. -/
def removeNode : List Node → Node → List Node
  | [], _ => []
  | x :: xs, n => if x = n then xs else x :: removeNode xs n

/-- The dictionary `expected_inputs_dict = dict(Constant=0, Reshape=2, Gemm=3)`;
a lookup of any other key raises `KeyError`. -/
def expected_inputs_dict : String → Option Nat
  | "Constant" => some 0
  | "Reshape" => some 2
  | "Gemm" => some 3
  | _ => none

/-- The message of the input-count assertion in the removal loop, already
formatted. -/
def inputsAssertMsg (expected : Nat) (opType : String) (actual : Nat) : String :=
  "Expected exactly " ++ toString expected ++ " input(s) for " ++ opType ++
    " op node, got " ++ toString actual

/-- The message of the output-count assertion in the removal loop, already
formatted. -/
def outputAssertMsg (opType : String) : String :=
  "Expected exactly one output for " ++ opType ++ " op node."

/-- The message of the assertion on line 24 of the script. -/
def gemmLastAssertMsg : String :=
  "Expected a Gemm node as the last one in the graph."

/-- The guards run for one node of `nodes[-3:]`, in source order: the
`expected_inputs_dict` lookup (`KeyError` on an unknown `op_type`), the
input-count assertion, then the output-count assertion. -/
def checkNode (n : Node) : Except Err Unit :=
  match expected_inputs_dict n.opType with
  | none => .error (.keyError n.opType)
  | some expected =>
    if n.input.length = expected then
      if n.output.length = 1 then .ok ()
      else .error (.assertionError (outputAssertMsg n.opType))
    else .error (.assertionError (inputsAssertMsg expected n.opType n.input.length))

/-- The removal loop `for removable_node in nodes[-3:]`: check each node of the
(pre-computed) slice, then `model.graph.node.remove` it from the accumulated
node list. -/
def removeLoop : List Node → List Node → Except Err (List Node)
  | g, [] => .ok g
  | g, n :: rest =>
    match checkNode n with
    | .error e => .error e
    | .ok _ => removeLoop (removeNode g n) rest

/-- The call `onnx.helper.make_node('Conv', name='last_conv_fc', ...)` with the
script's arguments: kernel_shape [1,1], strides [1,1], pads [0,0,0,0]. -/
def makeLastConv (avgpoolOutputName gemmWeightsName gemmBiasName outputName : String) : Node :=
  { opType := "Conv"
    name := "last_conv_fc"
    input := [avgpoolOutputName, gemmWeightsName, gemmBiasName]
    output := [outputName]
    attr := [⟨"kernel_shape", [1, 1]⟩, ⟨"strides", [1, 1]⟩, ⟨"pads", [0, 0, 0, 0]⟩] }

/-- Whether a node is a no-op `Pad` node: op_type `Pad` with an all-zero
`pads` attribute (an absent `pads` attribute defaults to zero padding). -/
def isNopPad (n : Node) : Bool :=
  n.opType == "Pad" && (n.attr.filter (fun a => a.name == "pads")).all
    (fun a => a.ints.all (fun i => i == 0))

/-- Modelled from the spec: `onnx.optimizer.optimize(model, ['eliminate_nop_pad'])`.
The onnx optimizer library is not part of this repository; per the spec the
pass "strips a redundant padding node", i.e. it removes every no-op `Pad` node
from the graph and leaves everything else in the model unchanged. -/
def eliminate_nop_pad (m : Model) : Model :=
  { graph := { m.graph with node := m.graph.node.filter (fun n => !(isNopPad n)) } }

/-- Lines 23-74 of the script, after the optimizer pass: the guards, the
removal loop, the initializer dims extension, and the construction of the
saved model.  Matches the source's evaluation order, so the exception raised
first in Python is the error returned here. -/
def optCore (m : Model) : Except Err Model :=
  match m.graph.node.getLast? with
  | none => .error .indexError
  | some lastNode =>
    if lastNode.opType = "Gemm" then
      match lastNode.input with
      | [_, gemmWeightsName, gemmBiasName] =>
        match removeLoop m.graph.node (sliceLast3 m.graph.node) with
        | .error e => .error e
        | .ok nodes1 =>
          match nodes1.getLast? with
          | none => .error .indexError
          | some avgNode =>
            match avgNode.output.head? with
            | none => .error .indexError
            | some avgpoolOutputName =>
              match pyIdxNeg2 m.graph.initializer with
              | none => .error .indexError
              | some wInit =>
                if wInit.name = gemmWeightsName then
                  match m.graph.output.head? with
                  | none => .error .indexError
                  | some modelOutput =>
                    .ok { graph :=
                      { node := nodes1 ++
                          [makeLastConv avgpoolOutputName gemmWeightsName
                            gemmBiasName modelOutput.name]
                        initializer := setPyIdxNeg2 m.graph.initializer
                          { wInit with dims := wInit.dims ++ [1, 1] }
                        input := m.graph.input
                        output := m.graph.output } }
                else .error (.assertionError "")
      | _ => .error .valueError
    else .error (.assertionError gemmLastAssertMsg)

/-- The function `optimize_quantized_mobilenet`: load (the argument model), run
the `eliminate_nop_pad` pass, then the core transformation; `.ok` is the model
saved to `name_out`. -/
def optimize_quantized_mobilenet (m : Model) : Except Err Model :=
  optCore (eliminate_nop_pad m)

/-- Result observer: whether a run of `optimize_quantized_mobilenet` reaches
`onnx.save` (`.ok`) or aborts with an exception (`.error`), in which case no
output file is written. -/
def writesOutput : Except Err Model → Bool
  | .ok _ => true
  | .error _ => false

/-- The guard conditions listed by the spec claim about the removal step: the
last three nodes of the graph are, in order, a Constant with 0 inputs and 1
output, a Reshape with 2 inputs and 1 output, and a Gemm with 3 inputs and 1
output. -/
def guardsC1 (l : List Node) : Bool :=
  match sliceLast3 l with
  | [a, b, c] =>
    a.opType == "Constant" && a.input.length == 0 && a.output.length == 1 &&
    b.opType == "Reshape" && b.input.length == 2 && b.output.length == 1 &&
    c.opType == "Gemm" && c.input.length == 3 && c.output.length == 1
  | _ => false

/-- Guard violation: the last graph node is not a Gemm node. -/
def lastNotGemm (g : Graph) : Bool :=
  match g.node.getLast? with
  | some n => !(n.opType == "Gemm")
  | none => false

/-- Guard violation: one of the last three nodes has a number of inputs other
than what `expected_inputs_dict` expects for its op_type, or more than one
output. -/
def sliceArityViolation (g : Graph) : Bool :=
  (sliceLast3 g.node).any fun n =>
    match expected_inputs_dict n.opType with
    | some k => !(n.input.length == k) || decide (1 < n.output.length)
    | none => false

/-- Guard violation: the second-to-last initializer is not named as the Gemm
node's weights input. -/
def initNameViolation (g : Graph) : Bool :=
  match g.node.getLast? with
  | some n =>
    match n.input, pyIdxNeg2 g.initializer with
    | [_, w, _], some wi => !(wi.name == w)
    | _, _ => false
  | none => false

/-- Any of the guard violations named by the spec's error-handling claim. -/
def claimGuardFail (g : Graph) : Bool :=
  lastNotGemm g || sliceArityViolation g || initNameViolation g

/-! Concrete models used as witnesses and counterexamples. -/

/-- A no-op Pad node (all-zero padding), as removed by `eliminate_nop_pad`. -/
def padNode : Node := ⟨"Pad", "pad0", ["d0"], ["d"], [⟨"pads", [0, 0, 0, 0, 0, 0, 0, 0]⟩]⟩

/-- The last AveragePool node of the MobileNet graph. -/
def xNode : Node := ⟨"AveragePool", "pool", ["d"], ["pool_out"], []⟩

/-- The trailing Constant node (produces the Reshape shape). -/
def cNode : Node := ⟨"Constant", "const", [], ["shape"], []⟩

/-- The trailing Reshape node. -/
def rNode : Node := ⟨"Reshape", "resh", ["pool_out", "shape"], ["resh_out"], []⟩

/-- The trailing Gemm (fully-connected) node. -/
def gNode : Node := ⟨"Gemm", "fc", ["resh_out", "W", "B"], ["out"], []⟩

/-- The Gemm weights initializer (second-to-last). -/
def wInit : Initializer := ⟨"W", [1000, 1024], []⟩

/-- The Gemm bias initializer (last). -/
def bInit : Initializer := ⟨"B", [1000], []⟩

/-- A well-formed input model: a no-op Pad, the AveragePool, and the trailing
Constant / Reshape / Gemm, with the weights initializer second-to-last. -/
def baseModel : Model :=
  ⟨⟨[padNode, xNode, cNode, rNode, gNode], [wInit, bInit], [⟨"d0"⟩], [⟨"out"⟩]⟩⟩

/-- The model `optimize_quantized_mobilenet` saves for `baseModel`. -/
def baseRes : Model :=
  ⟨⟨[xNode, makeLastConv "pool_out" "W" "B" "out"],
    [⟨"W", [1000, 1024, 1, 1], []⟩, bInit], [⟨"d0"⟩], [⟨"out"⟩]⟩⟩

/-- A node list accepted by all removal-step guards in which the first node is
structurally equal to the trailing Constant node. -/
def ns1 : List Node := [cNode, xNode, cNode, rNode, gNode]

/-- A model accepted by all guards in which the first node is structurally
equal to the trailing Reshape node. -/
def m10 : Model := ⟨⟨[rNode, xNode, cNode, rNode, gNode], [wInit, bInit], [⟨"d0"⟩], [⟨"out"⟩]⟩⟩

/-- The model `optimize_quantized_mobilenet` saves for `m10`: the surviving
copy of the duplicated Reshape node sits after the AveragePool node, not
before it. -/
def m10Res : Model :=
  ⟨⟨[xNode, rNode, makeLastConv "resh_out" "W" "B" "out"],
    [⟨"W", [1000, 1024, 1, 1], []⟩, bInit], [⟨"d0"⟩], [⟨"out"⟩]⟩⟩

/-- A Constant node with one input: its input-count assertion fails. -/
def cBad : Node := ⟨"Constant", "badconst", ["z"], ["shape"], []⟩

/-- A node whose op_type is missing from `expected_inputs_dict`. -/
def fooNode : Node := ⟨"Relu", "act", ["shape"], ["foo_out"], []⟩

/-- Last node Gemm, but the slice holds a bad Constant before the foreign
Relu node: the Constant assertion fires before the Relu dict lookup. -/
def m8 : Model := ⟨⟨[xNode, cBad, fooNode, gNode], [wInit, bInit], [⟨"d0"⟩], [⟨"out"⟩]⟩⟩

/-- Last node Gemm and a foreign Relu node in the slice, with the Constant
before it passing its checks: the run fails with a KeyError. -/
def m8w : Model := ⟨⟨[xNode, cNode, fooNode, gNode], [wInit, bInit], [⟨"d0"⟩], [⟨"out"⟩]⟩⟩

/-- A model whose last node is not a Gemm node. -/
def badM : Model := ⟨⟨[xNode], [wInit, bInit], [⟨"d0"⟩], [⟨"out"⟩]⟩⟩

/-- A Gemm node with only two inputs: the tuple unpacking raises ValueError. -/
def gBad : Node := ⟨"Gemm", "fc2", ["i", "w"], ["o"], []⟩

/-- A model whose last node is a two-input Gemm node. -/
def mBad : Model := ⟨⟨[xNode, gBad], [wInit, bInit], [⟨"d0"⟩], [⟨"out"⟩]⟩⟩

/-! The `main` entry point, lines 78-93 of the script.  The filesystem checks
`os.path.isdir` / `os.path.isfile` are modelled as an explicit environment. -/

/-- The filesystem predicates `main` consults. -/
structure FS where
  isdir : String → Bool
  isfile : String → Bool

/-- Python `os.path.join(a, b)` for the script's arguments (no trailing
separator on `a`, relative `b`). -/
def pathJoin (a b : String) : String := a ++ "/" ++ b

/-- The only exception `main` itself raises. -/
inductive MainErr where
  | runtimeError (msg : String)
deriving DecidableEq, Repr

/-- The hard-coded directory `top = './Quantized MobileNet'`. -/
def mainTop : String := "./Quantized MobileNet"

/-- The `main` function (named `mainEntry` since Lean reserves `main` for
executables): on success it returns the pair of paths passed to
`optimize_quantized_mobilenet` (input file, output file). -/
def mainEntry (fs : FS) : Except MainErr (String × String) :=
  if fs.isdir mainTop then
    if fs.isfile (pathJoin mainTop "mobilenet_sym_no_bn.onnx") then
      .ok (pathJoin mainTop "mobilenet_sym_no_bn.onnx", "mobilenet_quantized_opt.onnx")
    else
      .error (.runtimeError ("Found directory " ++ mainTop ++ " but could not find \"" ++
        pathJoin mainTop "mobilenet_sym_no_bn.onnx" ++ "\". Please read the README.md file."))
  else
    .error (.runtimeError ("Could not find directory \"" ++ mainTop ++
      "\". Please read the README.md file."))

/-- Whether `main` raised (RuntimeError) instead of reaching the call to
`optimize_quantized_mobilenet`. -/
def mainRaises : Except MainErr (String × String) → Bool
  | .error _ => true
  | .ok _ => false

/-- A filesystem on which both checks succeed. -/
def fsYes : FS := ⟨fun _ => true, fun _ => true⟩

/-- A filesystem on which the directory check fails. -/
def fsNo : FS := ⟨fun _ => false, fun _ => true⟩

/-! Helper lemmas about the embedding. -/

/-- Evaluation lemma for the Constant entry of the dictionary. -/
theorem dict_constant : expected_inputs_dict "Constant" = some 0 := rfl

/-- Evaluation lemma for the Reshape entry of the dictionary. -/
theorem dict_reshape : expected_inputs_dict "Reshape" = some 2 := rfl

/-- Evaluation lemma for the Gemm entry of the dictionary. -/
theorem dict_gemm : expected_inputs_dict "Gemm" = some 3 := rfl

/-- A node passing the dictionary lookup and both count checks passes
`checkNode`. -/
theorem checkNode_ok_of (n : Node) (k : Nat)
    (hd : expected_inputs_dict n.opType = some k)
    (hin : n.input.length = k) (hout : n.output.length = 1) :
    checkNode n = .ok () := by
  unfold checkNode
  rw [hd]
  simp [hin, hout]

/-- Characterization of a passing `checkNode`. -/
theorem checkNode_ok_iff (n : Node) :
    checkNode n = .ok () ↔
      expected_inputs_dict n.opType = some n.input.length ∧ n.output.length = 1 := by
  unfold checkNode
  cases hd : expected_inputs_dict n.opType with
  | none => simp [hd]
  | some k =>
    by_cases hin : n.input.length = k <;> by_cases hout : n.output.length = 1 <;>
      simp [hin, hout, eq_comm] <;> omega

/-- Removing an element that does not occur in the front part skips it. -/
theorem removeNode_append_of_not_mem (p l : List Node) (n : Node) (h : n ∉ p) :
    removeNode (p ++ l) n = p ++ removeNode l n := by
  induction p with
  | nil => rfl
  | cons x xs ih =>
    rw [List.cons_append, removeNode, if_neg, List.cons_append,
      ih (fun hm => h (List.mem_cons_of_mem _ hm))]
    intro hx
    exact h (hx ▸ List.mem_cons_self x xs)

/-- Each element of the result of `removeNode` comes from the input list. -/
theorem removeNode_subset (l : List Node) (n m : Node)
    (h : m ∈ removeNode l n) : m ∈ l := by
  induction l with
  | nil => cases h
  | cons x xs ih =>
    rw [removeNode] at h
    by_cases hx : x = n
    · rw [if_pos hx] at h
      exact List.mem_cons_of_mem _ h
    · rw [if_neg hx] at h
      rcases List.mem_cons.mp h with rfl | h
      · exact List.mem_cons_self _ _
      · exact List.mem_cons_of_mem _ (ih h)

/-- A successful removal loop ran `checkNode` successfully on each slice
element. -/
theorem removeLoop_ok_check (l : List Node) :
    ∀ (g g' : List Node), removeLoop g l = .ok g' → ∀ n ∈ l, checkNode n = .ok () := by
  induction l with
  | nil => intro g g' _ n hn; cases hn
  | cons x xs ih =>
    intro g g' h n hn
    rw [removeLoop] at h
    cases hcx : checkNode x with
    | error e => rw [hcx] at h; cases h
    | ok u =>
      rw [hcx] at h
      rcases List.mem_cons.mp hn with rfl | hn
      · cases u; exact hcx
      · exact ih _ _ h n hn

/-- Each node surviving a successful removal loop was in the input list. -/
theorem removeLoop_ok_subset (l : List Node) :
    ∀ (g g' : List Node), removeLoop g l = .ok g' → ∀ n ∈ g', n ∈ g := by
  induction l with
  | nil =>
    intro g g' h n hn
    rw [removeLoop] at h
    cases h
    exact hn
  | cons x xs ih =>
    intro g g' h n hn
    rw [removeLoop] at h
    cases hcx : checkNode x with
    | error e => rw [hcx] at h; cases h
    | ok u =>
      rw [hcx] at h
      exact removeNode_subset _ _ _ (ih _ _ h n hn)

/-- The removal loop on a list ending in its own slice `[a, b, c]`, when the
checks pass and none of `a`, `b`, `c` occurs earlier: exactly the three
trailing nodes are removed. -/
theorem removeLoop_three (p : List Node) (a b c : Node)
    (hca : checkNode a = .ok ()) (hcb : checkNode b = .ok ()) (hcc : checkNode c = .ok ())
    (hna : a ∉ p) (hnb : b ∉ p) (hnc : c ∉ p) :
    removeLoop (p ++ [a, b, c]) [a, b, c] = .ok p := by
  have h1 : removeNode (p ++ [a, b, c]) a = p ++ [b, c] := by
    rw [removeNode_append_of_not_mem _ _ _ hna, removeNode, if_pos rfl]
  have h2 : removeNode (p ++ [b, c]) b = p ++ [c] := by
    rw [removeNode_append_of_not_mem _ _ _ hnb, removeNode, if_pos rfl]
  have h3 : removeNode (p ++ [c]) c = p := by
    rw [removeNode_append_of_not_mem _ _ _ hnc, removeNode, if_pos rfl, List.append_nil]
  rw [removeLoop, hca, h1, removeLoop, hcb, h2, removeLoop, hcc, h3, removeLoop]

/-- Python `nodes[-3:]` on a list ending in three explicit nodes. -/
theorem sliceLast3_append (p : List Node) (a b c : Node) :
    sliceLast3 (p ++ [a, b, c]) = [a, b, c] := by
  have h : (p ++ [a, b, c]).length - 3 = p.length := by
    simp [List.length_append]
  rw [sliceLast3, h, List.drop_left]

/-- Taking all but the last three of a list ending in three explicit nodes. -/
theorem take_sub_three (p : List Node) (a b c : Node) :
    (p ++ [a, b, c]).take ((p ++ [a, b, c]).length - 3) = p := by
  have h : (p ++ [a, b, c]).length - 3 = p.length := by
    simp [List.length_append]
  rw [h, List.take_left]

/-- The last element of a list ending in three explicit nodes. -/
theorem getLast?_append_three (p : List Node) (a b c : Node) :
    (p ++ [a, b, c]).getLast? = some c := by
  have h : p ++ [a, b, c] = (p ++ [a, b]) ++ [c] := by simp
  rw [h, List.getLast?_concat]

/-- Forward evaluation of `optCore` on a model accepted by every guard whose
trailing three nodes do not recur earlier in the graph. -/
theorem optCore_run (m : Model) (p : List Node) (a b c : Node) (x w bn : String)
    (avgNode : Node) (avgOut : String) (wIn : Initializer) (mo : ValueInfo)
    (he : m.graph.node = p ++ [a, b, c])
    (hca : checkNode a = .ok ()) (hcb : checkNode b = .ok ()) (hcc : checkNode c = .ok ())
    (hc : c.opType = "Gemm") (hci : c.input = [x, w, bn])
    (hna : a ∉ p) (hnb : b ∉ p) (hnc : c ∉ p)
    (hp : p.getLast? = some avgNode) (hav : avgNode.output.head? = some avgOut)
    (hi : pyIdxNeg2 m.graph.initializer = some wIn) (hwn : wIn.name = w)
    (ho : m.graph.output.head? = some mo) :
    optCore m = .ok { graph :=
      { node := p ++ [makeLastConv avgOut w bn mo.name]
        initializer := setPyIdxNeg2 m.graph.initializer { wIn with dims := wIn.dims ++ [1, 1] }
        input := m.graph.input
        output := m.graph.output } } := by
  unfold optCore
  rw [he]
  simp only [getLast?_append_three, hc, hci, sliceLast3_append,
    removeLoop_three p a b c hca hcb hcc hna hnb hnc, hp, hav, hi, hwn, ho,
    if_true, String.length]

/-- Inversion: what a successful run of `optCore` tells about the input and
the saved model. -/
theorem optCore_ok_inv (m m' : Model) (h : optCore m = .ok m') :
    ∃ (g : Node) (x w bn : String) (nodes1 : List Node) (avgNode : Node) (avgOut : String)
      (wIn : Initializer) (mo : ValueInfo),
      m.graph.node.getLast? = some g ∧ g.opType = "Gemm" ∧ g.input = [x, w, bn] ∧
      removeLoop m.graph.node (sliceLast3 m.graph.node) = .ok nodes1 ∧
      nodes1.getLast? = some avgNode ∧ avgNode.output.head? = some avgOut ∧
      pyIdxNeg2 m.graph.initializer = some wIn ∧ wIn.name = w ∧
      m.graph.output.head? = some mo ∧
      m' = { graph :=
        { node := nodes1 ++ [makeLastConv avgOut w bn mo.name]
          initializer := setPyIdxNeg2 m.graph.initializer { wIn with dims := wIn.dims ++ [1, 1] }
          input := m.graph.input
          output := m.graph.output } } := by
  unfold optCore at h
  split at h
  · exact Except.noConfusion h
  next lastNode heq =>
    split at h
    next hop =>
      split at h
      next i1 w bn heqi =>
        split at h
        next e heqr => exact Except.noConfusion h
        next nodes1 heqr =>
          split at h
          · exact Except.noConfusion h
          next avgNode heqa =>
            split at h
            · exact Except.noConfusion h
            next avgOut heqo =>
              split at h
              · exact Except.noConfusion h
              next wIn heqw =>
                split at h
                next hwn =>
                  split at h
                  · exact Except.noConfusion h
                  next mo heqm =>
                    exact ⟨lastNode, i1, w, bn, nodes1, avgNode, avgOut, wIn, mo,
                      heq, hop, heqi, heqr, heqa, heqo, heqw, hwn, heqm,
                      (Except.ok.inj h).symm⟩
                next hwn => exact Except.noConfusion h
      next heqi => exact Except.noConfusion h
    next hop => exact Except.noConfusion h

/-- The optimizer pass only rewrites the node list. -/
theorem pad_initializer_eq (m : Model) :
    (eliminate_nop_pad m).graph.initializer = m.graph.initializer := rfl

/-- The optimizer pass leaves the declared graph outputs unchanged. -/
theorem pad_output_eq (m : Model) :
    (eliminate_nop_pad m).graph.output = m.graph.output := rfl

/-- The optimizer pass leaves the declared graph inputs unchanged. -/
theorem pad_input_eq (m : Model) :
    (eliminate_nop_pad m).graph.input = m.graph.input := rfl

/-- A removal loop whose slice holds a node of foreign op_type, after nodes
that pass their checks, fails with the KeyError of the dictionary lookup. -/
theorem removeLoop_keyError (s1 : List Node) :
    ∀ (g : List Node) (n : Node) (s2 : List Node),
      expected_inputs_dict n.opType = none →
      (∀ y ∈ s1, checkNode y = .ok ()) →
      removeLoop g (s1 ++ n :: s2) = .error (.keyError n.opType) := by
  induction s1 with
  | nil =>
    intro g n s2 hn _
    have hc : checkNode n = .error (.keyError n.opType) := by
      unfold checkNode; rw [hn]
    rw [List.nil_append, removeLoop, hc]
  | cons y ys ih =>
    intro g n s2 hn hok
    rw [List.cons_append, removeLoop, hok y (List.mem_cons_self y ys)]
    exact ih _ n s2 hn (fun z hz => hok z (List.mem_cons_of_mem _ hz))

/-- C1 (amended): for every input accepted by the guards (last three nodes a
Constant with 0 inputs and 1 output, a Reshape with 2 inputs and 1 output, and
a Gemm with 3 inputs and 1 output) in which none of the last three nodes is
structurally equal to an earlier node, the removal step removes exactly the
last three nodes of the graph and no other node. -/
theorem removal_step_removes_last_three (p : List Node) (a b c : Node)
    (ha : a.opType = "Constant") (hai : a.input.length = 0) (hao : a.output.length = 1)
    (hb : b.opType = "Reshape") (hbi : b.input.length = 2) (hbo : b.output.length = 1)
    (hc : c.opType = "Gemm") (hci : c.input.length = 3) (hco : c.output.length = 1)
    (hna : a ∉ p) (hnb : b ∉ p) (hnc : c ∉ p) :
    removeLoop (p ++ [a, b, c]) (sliceLast3 (p ++ [a, b, c])) =
      .ok ((p ++ [a, b, c]).take ((p ++ [a, b, c]).length - 3)) := by
  rw [sliceLast3_append, take_sub_three]
  exact removeLoop_three p a b c
    (checkNode_ok_of a 0 (by rw [ha]; rfl) hai hao)
    (checkNode_ok_of b 2 (by rw [hb]; rfl) hbi hbo)
    (checkNode_ok_of c 3 (by rw [hc]; rfl) hci hco)
    hna hnb hnc

/-- Witness for C1 at a concrete accepted model. -/
theorem removal_step_removes_last_three_witness :
    removeLoop ([xNode] ++ [cNode, rNode, gNode]) (sliceLast3 ([xNode] ++ [cNode, rNode, gNode])) =
      .ok (([xNode] ++ [cNode, rNode, gNode]).take
        (([xNode] ++ [cNode, rNode, gNode]).length - 3)) :=
  removal_step_removes_last_three [xNode] cNode rNode gNode rfl rfl rfl rfl rfl rfl rfl rfl rfl
    (by decide) (by decide) (by decide)

/-- Counterexample to C1 as stated: `ns1` is accepted by every guard, yet the
removal step deletes the first (duplicate) Constant node instead of the
trailing one, so the surviving nodes are not the first `length - 3` nodes. -/
theorem removal_step_duplicate_counterexample :
    guardsC1 ns1 = true ∧
    removeLoop ns1 (sliceLast3 ns1) ≠ .ok (ns1.take (ns1.length - 3)) := by
  decide

/-- C2: for every accepted run (success hypothesis plus the defining equations
of the intermediate values), the saved graph is the post-removal node list
with exactly one appended node: a Conv named last_conv_fc with kernel_shape
[1,1], strides [1,1], pads [0,0,0,0], inputs (post-removal last node's output,
Gemm weights name, Gemm bias name) and the first graph output's name as its
single output (all fields fixed by `makeLastConv`). -/
theorem conv_append_spec (m m' : Model) (g : Node) (x w bn : String)
    (nodes1 : List Node) (avgNode : Node) (avgOut : String) (wIn : Initializer) (mo : ValueInfo)
    (h : optimize_quantized_mobilenet m = .ok m')
    (hg : (eliminate_nop_pad m).graph.node.getLast? = some g)
    (hgt : g.opType = "Gemm") (hgi : g.input = [x, w, bn])
    (h1 : removeLoop (eliminate_nop_pad m).graph.node
      (sliceLast3 (eliminate_nop_pad m).graph.node) = .ok nodes1)
    (h2 : nodes1.getLast? = some avgNode) (h3 : avgNode.output.head? = some avgOut)
    (hi : pyIdxNeg2 m.graph.initializer = some wIn) (hwn : wIn.name = w)
    (ho : m.graph.output.head? = some mo) :
    m'.graph.node = nodes1 ++ [makeLastConv avgOut w bn mo.name] := by
  unfold optimize_quantized_mobilenet at h
  obtain ⟨g', x', w', bn', nodes1', avgNode', avgOut', wIn', mo',
    e1, e2, e3, e4, e5, e6, e7, e8, e9, e10⟩ := optCore_ok_inv _ _ h
  rw [hg] at e1
  injection e1 with e1
  subst e1
  rw [hgi] at e3
  injection e3 with ex e3
  injection e3 with ew e3
  injection e3 with ebn _
  subst ex; subst ew; subst ebn
  rw [h1] at e4
  injection e4 with e4
  subst e4
  rw [h2] at e5
  injection e5 with e5
  subst e5
  rw [h3] at e6
  injection e6 with e6
  subst e6
  rw [pad_initializer_eq, hi] at e7
  injection e7 with e7
  subst e7
  rw [pad_output_eq, ho] at e9
  injection e9 with e9
  subst e9
  rw [e10]

/-- Witness for C2 at a concrete accepted model. -/
theorem conv_append_spec_witness :
    baseRes.graph.node = [xNode] ++ [makeLastConv "pool_out" "W" "B" "out"] :=
  conv_append_spec baseModel baseRes gNode "resh_out" "W" "B" [xNode] xNode "pool_out"
    wInit ⟨"out"⟩ rfl rfl rfl rfl rfl rfl rfl rfl rfl rfl

/-- C3: the optimizer pass `eliminate_nop_pad` is applied to the whole model
before the removals (second conjunct, definitional), and after a successful
run the saved graph contains no no-op Pad node (first conjunct). -/
theorem no_nop_pad_after_success (m m' : Model)
    (h : optimize_quantized_mobilenet m = .ok m') :
    (m'.graph.node.all fun n => !(isNopPad n)) = true ∧
    optimize_quantized_mobilenet m = optCore (eliminate_nop_pad m) := by
  refine ⟨?_, rfl⟩
  unfold optimize_quantized_mobilenet at h
  obtain ⟨g, x, w, bn, nodes1, avgNode, avgOut, wIn, mo,
    _, _, _, e4, _, _, _, _, _, e10⟩ := optCore_ok_inv _ _ h
  rw [e10]
  rw [List.all_append, Bool.and_eq_true]
  constructor
  · rw [List.all_eq_true]
    intro n hn
    have hmem : n ∈ m.graph.node.filter (fun n => !(isNopPad n)) :=
      removeLoop_ok_subset _ _ _ e4 n hn
    simpa using (List.mem_filter.mp hmem).2
  · rfl

/-- Witness for C3 at a concrete model holding a no-op Pad node. -/
theorem no_nop_pad_after_success_witness :
    (baseRes.graph.node.all fun n => !(isNopPad n)) = true ∧
    optimize_quantized_mobilenet baseModel = optCore (eliminate_nop_pad baseModel) :=
  no_nop_pad_after_success baseModel baseRes rfl

/-- C4: on every successful run, the second-to-last initializer (the Gemm
weights, by the guard) gets exactly two trailing dims equal to 1, with its
name, leading dims and raw data unchanged, and every other initializer is
unchanged. -/
theorem weights_dims_extension_spec (m m' : Model) (wIn : Initializer)
    (h : optimize_quantized_mobilenet m = .ok m')
    (hi : pyIdxNeg2 m.graph.initializer = some wIn) :
    m'.graph.initializer =
      setPyIdxNeg2 m.graph.initializer { wIn with dims := wIn.dims ++ [1, 1] } ∧
    (∀ i, i ≠ m.graph.initializer.length - 2 →
      m'.graph.initializer.get? i = m.graph.initializer.get? i) ∧
    m'.graph.initializer.get? (m.graph.initializer.length - 2) =
      some { wIn with dims := wIn.dims ++ [1, 1] } := by
  unfold optimize_quantized_mobilenet at h
  obtain ⟨g, x, w, bn, nodes1, avgNode, avgOut, wIn', mo,
    _, _, _, _, _, _, e7, _, _, e10⟩ := optCore_ok_inv _ _ h
  rw [pad_initializer_eq, hi] at e7
  injection e7 with e7
  subst e7
  have hlen : 2 ≤ m.graph.initializer.length := by
    by_contra hlt
    unfold pyIdxNeg2 at hi
    rw [if_neg hlt] at hi
    cases hi
  have hres : m'.graph.initializer =
      setPyIdxNeg2 m.graph.initializer { wIn with dims := wIn.dims ++ [1, 1] } := by
    rw [e10]
    rfl
  refine ⟨hres, ?_, ?_⟩
  · intro i hne
    rw [hres]
    exact List.get?_set_ne _ _ (fun hh => hne hh.symm)
  · rw [hres]
    exact List.get?_set_eq_of_lt _ (by omega)

/-- Witness for C4 at a concrete accepted model. -/
theorem weights_dims_extension_spec_witness :
    baseRes.graph.initializer =
      setPyIdxNeg2 baseModel.graph.initializer { wInit with dims := wInit.dims ++ [1, 1] } ∧
    baseRes.graph.initializer.get? 1 = baseModel.graph.initializer.get? 1 ∧
    baseRes.graph.initializer.get? (baseModel.graph.initializer.length - 2) =
      some { wInit with dims := wInit.dims ++ [1, 1] } :=
  ⟨(weights_dims_extension_spec baseModel baseRes wInit rfl rfl).1,
   (weights_dims_extension_spec baseModel baseRes wInit rfl rfl).2.1 1 (by decide),
   (weights_dims_extension_spec baseModel baseRes wInit rfl rfl).2.2⟩

/-- C5: on every input model violating one of the guards (last node not a
Gemm, a slice node with the wrong input count or without exactly one output,
or a misnamed second-to-last initializer), the run aborts before the save
step, so no output model is written. -/
theorem guard_failure_writes_nothing (m : Model)
    (h : claimGuardFail (eliminate_nop_pad m).graph = true) :
    writesOutput (optimize_quantized_mobilenet m) = false := by
  cases hr : optimize_quantized_mobilenet m with
  | error e => rfl
  | ok m' =>
    exfalso
    unfold optimize_quantized_mobilenet at hr
    obtain ⟨g, x, w, bn, nodes1, avgNode, avgOut, wIn, mo,
      e1, e2, e3, e4, e5, e6, e7, e8, e9, e10⟩ := optCore_ok_inv _ _ hr
    unfold claimGuardFail at h
    rw [Bool.or_eq_true, Bool.or_eq_true] at h
    rcases h with (h | h) | h
    · unfold lastNotGemm at h
      rw [e1] at h
      simp [e2] at h
    · unfold sliceArityViolation at h
      rw [List.any_eq_true] at h
      obtain ⟨n, hn, hpred⟩ := h
      have hchk := (checkNode_ok_iff n).mp (removeLoop_ok_check _ _ _ e4 n hn)
      obtain ⟨hd, hout⟩ := hchk
      rw [hd] at hpred
      simp [hout] at hpred
    · unfold initNameViolation at h
      simp only [e1, e3, e7] at h
      simp [e8] at h

/-- Witness for C5 at a concrete model whose last node is not a Gemm node. -/
theorem guard_failure_writes_nothing_witness :
    claimGuardFail (eliminate_nop_pad badM).graph = true ∧
    writesOutput (optimize_quantized_mobilenet badM) = false :=
  ⟨by decide, guard_failure_writes_nothing badM (by decide)⟩

/-- C6: `main` raises RuntimeError exactly when the hard-coded directory or the
hard-coded input file is missing, and otherwise calls the optimizer on exactly
the hard-coded input and output paths. -/
theorem main_hardcoded_paths (fs : FS) :
    (mainRaises (mainEntry fs) = true ↔
      (fs.isdir mainTop = false ∨
        fs.isfile (pathJoin mainTop "mobilenet_sym_no_bn.onnx") = false)) ∧
    (fs.isdir mainTop = true →
      fs.isfile (pathJoin mainTop "mobilenet_sym_no_bn.onnx") = true →
      mainEntry fs = .ok (pathJoin mainTop "mobilenet_sym_no_bn.onnx",
        "mobilenet_quantized_opt.onnx")) := by
  by_cases hd : fs.isdir mainTop = true <;>
    by_cases hf : fs.isfile (pathJoin mainTop "mobilenet_sym_no_bn.onnx") = true <;>
    simp [mainEntry, mainRaises, hd, hf]

/-- Witness for C6 on two concrete filesystems. -/
theorem main_hardcoded_paths_witness :
    mainEntry fsYes = .ok (pathJoin mainTop "mobilenet_sym_no_bn.onnx",
      "mobilenet_quantized_opt.onnx") ∧
    mainRaises (mainEntry fsNo) = true :=
  ⟨(main_hardcoded_paths fsYes).2 rfl rfl,
   (main_hardcoded_paths fsNo).1.mpr (Or.inl rfl)⟩

/-- C7: the transformation is a pure function of the loaded model: equal input
model contents give equal saved models (and equal failures). -/
theorem optimize_deterministic (m1 m2 : Model) (h : m1 = m2) :
    optimize_quantized_mobilenet m1 = optimize_quantized_mobilenet m2 := by
  rw [h]

/-- Witness for C7 at a concrete model. -/
theorem optimize_deterministic_witness :
    optimize_quantized_mobilenet baseModel = optimize_quantized_mobilenet baseModel :=
  optimize_deterministic baseModel baseModel rfl

/-- C8 (amended): when the last node is a Gemm whose three inputs unpack, and
the first offending node of the `nodes[-3:]` slice has an op_type outside
`expected_inputs_dict` (every slice node before it passing its checks), the
run fails with the KeyError of the dictionary lookup, not an AssertionError:
guard failures are not limited to assertion checks. -/
theorem foreign_op_type_keyerror (m : Model) (g : Node) (x w bn : String)
    (s1 s2 : List Node) (n : Node)
    (hg : (eliminate_nop_pad m).graph.node.getLast? = some g)
    (hgt : g.opType = "Gemm") (hgi : g.input = [x, w, bn])
    (hs : sliceLast3 (eliminate_nop_pad m).graph.node = s1 ++ n :: s2)
    (hn : expected_inputs_dict n.opType = none)
    (hok : ∀ y ∈ s1, checkNode y = .ok ()) :
    optimize_quantized_mobilenet m = .error (.keyError n.opType) := by
  unfold optimize_quantized_mobilenet optCore
  simp only [hg, hgt, hgi, hs, removeLoop_keyError s1 _ n s2 hn hok, if_true]

/-- Witness for C8 at a concrete model with a Relu node in the slice. -/
theorem foreign_op_type_keyerror_witness :
    optimize_quantized_mobilenet m8w = .error (.keyError "Relu") :=
  foreign_op_type_keyerror m8w gNode "resh_out" "W" "B" [cNode] [gNode] fooNode
    rfl rfl rfl rfl rfl (by decide)

/-- Counterexample to C8 as stated: in `m8` the last node is a Gemm and the
slice holds a node of foreign op_type (Relu), yet the run fails with the
AssertionError of the bad Constant before it, not with a KeyError. -/
theorem assertion_before_keyerror_counterexample :
    ((eliminate_nop_pad m8).graph.node.getLast?).map Node.opType = some "Gemm" ∧
    ((sliceLast3 (eliminate_nop_pad m8).graph.node).any
      (fun n => (expected_inputs_dict n.opType).isNone)) = true ∧
    optimize_quantized_mobilenet m8 =
      .error (.assertionError (inputsAssertMsg 0 "Constant" 1)) := by
  refine ⟨rfl, rfl, rfl⟩

/-- C9: the input-count assertion of the removal loop can never fail for the
last (Gemm) node: a Gemm last node with an input count other than 3 already
fails the tuple unpacking with ValueError (first conjunct), and for a Gemm
node whose inputs did unpack the assertion condition holds, so `checkNode`
can only succeed or fail on the output-count assertion (second conjunct). -/
theorem gemm_input_assert_unreachable :
    (∀ (m : Model) (g : Node), m.graph.node.getLast? = some g → g.opType = "Gemm" →
      g.input.length ≠ 3 → optCore m = .error .valueError) ∧
    (∀ (n : Node) (x w bn : String), n.opType = "Gemm" → n.input = [x, w, bn] →
      expected_inputs_dict n.opType = some n.input.length ∧
      (checkNode n = .ok () ∨
        checkNode n = .error (.assertionError (outputAssertMsg n.opType)))) := by
  constructor
  · intro m g h1 h2 h3
    unfold optCore
    rcases hgi : g.input with _ | ⟨i1, _ | ⟨i2, _ | ⟨i3, _ | ⟨i4, rest⟩⟩⟩⟩
    · simp [h1, h2, hgi]
    · simp [h1, h2, hgi]
    · simp [h1, h2, hgi]
    · exact absurd (by rw [hgi]; rfl) h3
    · simp [h1, h2, hgi]
  · intro n x w bn h1 h2
    have hd : expected_inputs_dict n.opType = some 3 := by rw [h1]; rfl
    have hlen : n.input.length = 3 := by rw [h2]; rfl
    refine ⟨by rw [hd, hlen], ?_⟩
    unfold checkNode
    rw [hd]
    by_cases hout : n.output.length = 1
    · simp [hlen, hout]
    · simp [hlen, hout]

/-- Witness for C9: a two-input Gemm last node makes the unpacking raise
ValueError, and the well-formed Gemm node passes its input-count check. -/
theorem gemm_input_assert_unreachable_witness :
    optCore mBad = .error .valueError ∧
    (expected_inputs_dict gNode.opType = some gNode.input.length ∧
      (checkNode gNode = .ok () ∨
        checkNode gNode = .error (.assertionError (outputAssertMsg gNode.opType)))) :=
  ⟨gemm_input_assert_unreachable.1 mBad gBad rfl rfl (by decide),
   gemm_input_assert_unreachable.2 gNode "resh_out" "W" "B" rfl rfl⟩

/-- C10 (amended): frame effect of a successful run on an input in which none
of the trailing three nodes recurs earlier in the (Pad-stripped) graph: the
saved model keeps every non-removed node unchanged and in place, changes the
one weights initializer only, appends the one Conv node, and leaves the
declared graph inputs and outputs untouched. -/
theorem frame_effect_spec (m : Model) (p : List Node) (a b c : Node) (x w bn : String)
    (avgNode : Node) (avgOut : String) (wIn : Initializer) (mo : ValueInfo)
    (he : (eliminate_nop_pad m).graph.node = p ++ [a, b, c])
    (ha : a.opType = "Constant") (hai : a.input.length = 0) (hao : a.output.length = 1)
    (hb : b.opType = "Reshape") (hbi : b.input.length = 2) (hbo : b.output.length = 1)
    (hc : c.opType = "Gemm") (hci : c.input = [x, w, bn]) (hco : c.output.length = 1)
    (hna : a ∉ p) (hnb : b ∉ p) (hnc : c ∉ p)
    (hp : p.getLast? = some avgNode) (hav : avgNode.output.head? = some avgOut)
    (hi : pyIdxNeg2 m.graph.initializer = some wIn) (hwn : wIn.name = w)
    (ho : m.graph.output.head? = some mo) :
    optimize_quantized_mobilenet m = .ok { graph :=
      { node := p ++ [makeLastConv avgOut w bn mo.name]
        initializer := setPyIdxNeg2 m.graph.initializer { wIn with dims := wIn.dims ++ [1, 1] }
        input := m.graph.input
        output := m.graph.output } } := by
  unfold optimize_quantized_mobilenet
  exact optCore_run (eliminate_nop_pad m) p a b c x w bn avgNode avgOut wIn mo he
    (checkNode_ok_of a 0 (by rw [ha]; rfl) hai hao)
    (checkNode_ok_of b 2 (by rw [hb]; rfl) hbi hbo)
    (checkNode_ok_of c 3 (by rw [hc]; rfl) (by rw [hci]; rfl) hco)
    hc hci hna hnb hnc hp hav hi hwn ho

/-- Witness for C10 at a concrete accepted model. -/
theorem frame_effect_spec_witness :
    optimize_quantized_mobilenet baseModel = .ok { graph :=
      { node := [xNode] ++ [makeLastConv "pool_out" "W" "B" "out"]
        initializer := setPyIdxNeg2 baseModel.graph.initializer
          { wInit with dims := wInit.dims ++ [1, 1] }
        input := baseModel.graph.input
        output := baseModel.graph.output } } :=
  frame_effect_spec baseModel [xNode] cNode rNode gNode "resh_out" "W" "B" xNode "pool_out"
    wInit ⟨"out"⟩ rfl rfl rfl rfl rfl rfl rfl rfl rfl rfl
    (by decide) (by decide) (by decide) rfl rfl rfl rfl rfl

/-- Counterexample to C10 as stated: on `m10` the run succeeds, but the
surviving pre-existing nodes are not the graph's first `length - 3` nodes:
the duplicate Reshape node before the AveragePool node was removed and its
trailing copy kept. -/
theorem frame_effect_duplicate_counterexample :
    optimize_quantized_mobilenet m10 = .ok m10Res ∧
    m10Res.graph.node.dropLast ≠
      ((eliminate_nop_pad m10).graph.node).take
        (((eliminate_nop_pad m10).graph.node).length - 3) := by
  refine ⟨rfl, by decide⟩
